import Mathlib

/-!
Shallow embedding of the multiplexed reverse proxy (Python sources under
`src/`): the HTTP codec (`utilities/parse_request.py`,
`utilities/reconstruct_request.py`, `utilities/parse_response.py`,
`utilities/reconstruct_response.py`, `utilities/get_cache_control.py`),
the cache (`cache.py`), the error-response templates (`responses.py`),
the load balancer (`load_balancer.py`), the connection pool
(`connection_pool.py`) and the connection state machine
(`connection_context.py`).

Modelling conventions:
* Python `bytes` and `str` are both modelled as `List Nat` (the byte list of
  the UTF-8 encoding); `encode`/`decode` are identities in this model.
* `time.time()` timestamps are modelled as `Int` (only order and addition of
  timestamps matter to the embedded code).
* Python exceptions are modelled with `Except PyErr`.
* Sockets are modelled by identifiers / booleans; selector registration and
  actual I/O syscalls are not modelled, their *results* (received chunk,
  number of bytes sent, `SO_ERROR` value) are passed in as parameters.
-/

/-- ASCII bytes of a string literal (model of Python `str`/`bytes` literals). -/
def ascii (s : String) : List Nat := s.toList.map Char.toNat

/-- Python exceptions raised by the embedded code. -/
inductive PyErr where
  | valueError
  | zeroDivisionError
  | indexError
  | nameError
deriving DecidableEq, Repr, Inhabited

/-- Python `bytes.split(sep)` for a two-byte separator `[a, b]`:
non-overlapping, leftmost-first. `split2 a b [] = [[]]`, matching how Python
splits an empty byte string into a singleton list of the empty string. -/
def split2 (a b : Nat) : List Nat → List (List Nat)
  | [] => [[]]
  | [x] => [[x]]
  | x :: y :: rest =>
    if x = a ∧ y = b then
      [] :: split2 a b rest
    else
      match split2 a b (y :: rest) with
      | [] => [[x]]
      | c :: cs => (x :: c) :: cs

/-- Joining with a separator (`sep.join` in Python); inverse of `split2`. -/
def joinSep (sep : List Nat) : List (List Nat) → List Nat
  | [] => []
  | [c] => c
  | c :: c2 :: cs => c ++ sep ++ joinSep sep (c2 :: cs)

/-- Python `sub in s` for byte strings: contiguous-subsequence test. -/
def containsSeq (pat : List Nat) : List Nat → Bool
  | [] => pat.isPrefixOf []
  | x :: rest => pat.isPrefixOf (x :: rest) || containsSeq pat rest

/-- The part of `s` before the first occurrence of `pat`
(`s.partition(pat)[0]` in Python, for `pat` present in `s`). -/
def takeUntilSeq (pat : List Nat) : List Nat → List Nat
  | [] => []
  | x :: rest => if pat.isPrefixOf (x :: rest) then [] else x :: takeUntilSeq pat rest

/-- ASCII whitespace bytes recognised by Python `bytes.split()` /
`str.split()` with no argument. -/
def isSpaceByte (c : Nat) : Bool :=
  c = 32 || c = 9 || c = 10 || c = 13 || c = 11 || c = 12

/-- Python `s.split()` (no argument): split on whitespace runs, dropping
empty tokens. -/
def wsTokens (l : List Nat) : List (List Nat) :=
  (l.splitOnP isSpaceByte).filter (fun t => !t.isEmpty)

/-- Python `str.lower()` restricted to ASCII (all header names and values the
embedded code compares are ASCII). -/
def asciiLower (l : List Nat) : List Nat :=
  l.map (fun c => if 65 ≤ c ∧ c ≤ 90 then c + 32 else c)

/-- Python `dict` lookup `d.get(k)` on an insertion-ordered association list. -/
def dictGet {κ ν : Type} [DecidableEq κ] (k : κ) (d : List (κ × ν)) : Option ν :=
  (d.find? (fun p => decide (p.1 = k))).map (fun p => p.2)

/-- Python `k in d`. -/
def dictContains {κ ν : Type} [DecidableEq κ] (k : κ) (d : List (κ × ν)) : Bool :=
  d.any (fun p => decide (p.1 = k))

/-- Python `d[k] = v`: overwrite in place if the key is present (keeping its
insertion position), otherwise append. -/
def dictInsert {κ ν : Type} [DecidableEq κ] (k : κ) (v : ν) (d : List (κ × ν)) :
    List (κ × ν) :=
  if d.any (fun p => decide (p.1 = k)) then
    d.map (fun p => if p.1 = k then (k, v) else p)
  else
    d ++ [(k, v)]

/-- Python `d.pop(k)` / `del d[k]` (no-op when absent; callers in the source
guard or catch `KeyError`). -/
def dictPop {κ ν : Type} [DecidableEq κ] (k : κ) (d : List (κ × ν)) : List (κ × ν) :=
  d.filter (fun p => decide (p.1 ≠ k))

/-- One header line of `parse_request`/`parse_response`: splitting on the
two bytes colon-space must yield exactly two pieces. -/
def parseHeaderLine (h : List Nat) : Option (List Nat × List Nat) :=
  match split2 58 32 h with
  | [k, v] => some (k, v)
  | _ => none

/-- Model of `utilities/parse_request.py`: split the head on CRLF, require exactly three
whitespace-separated tokens on the request line, parse each remaining line as
`key: value`, and build the (insertion-ordered, last-wins) header dict.
`none` models the raised `ValueError`. -/
def parse_request (header : List Nat) : Option (List Nat × List (List Nat × List Nat)) :=
  let lines := split2 13 10 header
  if (wsTokens lines.headI).length = 3 then
    match lines.tail.mapM parseHeaderLine with
    | some pairs => some (lines.headI, pairs.foldl (fun d p => dictInsert p.1 p.2 d) [])
    | none => none
  else
    none

/-- Model of `utilities/parse_response.py`: identical to `parse_request` except that the
first line is not validated. -/
def parse_response (header : List Nat) : Option (List Nat × List (List Nat × List Nat)) :=
  let lines := split2 13 10 header
  match lines.tail.mapM parseHeaderLine with
  | some pairs => some (lines.headI, pairs.foldl (fun d p => dictInsert p.1 p.2 d) [])
  | none => none

/-- Model of `utilities/reconstruct_request.py`: request line, CRLF, each `key: value`
followed by CRLF in insertion order, a blank line, then the body. -/
def reconstruct_request (line : List Nat) (headers : List (List Nat × List Nat))
    (body : List Nat) : List Nat :=
  line ++ [13, 10] ++ (headers.map (fun p => p.1 ++ [58, 32] ++ p.2 ++ [13, 10])).flatten
    ++ [13, 10] ++ body

/-- Model of `utilities/reconstruct_response.py`: same shape as `reconstruct_request`. -/
def reconstruct_response (line : List Nat) (headers : List (List Nat × List Nat))
    (body : List Nat) : List Nat :=
  line ++ [13, 10] ++ (headers.map (fun p => p.1 ++ [58, 32] ++ p.2 ++ [13, 10])).flatten
    ++ [13, 10] ++ body

example : split2 13 10 (ascii "a\r\nbc\r\n") = [ascii "a", ascii "bc", []] := by decide

example :
    parse_request (ascii "GET /i.html HTTP/1.1\r\nHost: a.com\r\nAccept: gzip") =
      some (ascii "GET /i.html HTTP/1.1",
        [(ascii "Host", ascii "a.com"), (ascii "Accept", ascii "gzip")]) := by
  decide

example : parse_request (ascii "GET /i.html\r\nHost: a.com") = none := by decide

example :
    reconstruct_request (ascii "GET / HTTP/1.1") [(ascii "Host", ascii "h")] (ascii "xy") =
      ascii "GET / HTTP/1.1\r\nHost: h\r\n\r\nxy" := by decide

theorem split2_ne_nil (a b : Nat) : ∀ l, split2 a b l ≠ []
  | [] => by simp [split2]
  | [x] => by simp [split2]
  | x :: y :: rest => by
    simp only [split2]
    split
    · simp
    · split <;> simp

theorem split2_join : ∀ (a b : Nat) (l : List Nat), joinSep [a, b] (split2 a b l) = l
  | _, _, [] => by simp [split2, joinSep]
  | _, _, [x] => by simp [split2, joinSep]
  | a, b, x :: y :: rest => by
    have ih1 := split2_join a b rest
    have ih2 := split2_join a b (y :: rest)
    simp only [split2]
    split
    · rename_i hxy
      obtain ⟨rfl, rfl⟩ := hxy
      cases hcs : split2 x y rest with
      | nil => exact absurd hcs (split2_ne_nil x y rest)
      | cons c cs =>
        rw [hcs] at ih1
        simpa [joinSep] using ih1
    · cases hcs : split2 a b (y :: rest) with
      | nil => exact absurd hcs (split2_ne_nil a b (y :: rest))
      | cons c cs =>
        rw [hcs] at ih2
        cases cs with
        | nil => simpa [joinSep] using ih2
        | cons d ds =>
          simp only [joinSep] at ih2 ⊢
          simp [← ih2]

theorem joinSep_cons_append :
    ∀ (sep x : List Nat) (xs : List (List Nat)),
      joinSep sep (x :: xs) ++ sep = x ++ sep ++ (xs.map (fun t => t ++ sep)).flatten
  | _, _, [] => by simp [joinSep]
  | sep, x, y :: ys => by
    have ih := joinSep_cons_append sep y ys
    simp only [joinSep, List.map_cons, List.flatten_cons]
    rw [List.append_assoc (x ++ sep), ih]

theorem parseHeaderLine_eq {h k v : List Nat} (hp : parseHeaderLine h = some (k, v)) :
    h = k ++ [58, 32] ++ v := by
  have hj := split2_join 58 32 h
  unfold parseHeaderLine at hp
  revert hp
  cases hs : split2 58 32 h with
  | nil => simp
  | cons c cs =>
    cases cs with
    | nil => simp
    | cons c2 cs2 =>
      cases cs2 with
      | nil =>
        intro hp
        simp only [Option.some.injEq, Prod.mk.injEq] at hp
        obtain ⟨rfl, rfl⟩ := hp
        rw [hs] at hj
        simpa [joinSep] using hj.symm
      | cons d ds => simp

theorem mapM_parseHeaderLine_eq :
    ∀ {hls : List (List Nat)} {ps : List (List Nat × List Nat)},
      hls.mapM parseHeaderLine = some ps →
      hls = ps.map (fun p => p.1 ++ [58, 32] ++ p.2)
  | [], ps, h => by
    simp only [List.mapM_nil, pure, Option.some.injEq] at h
    simp [← h]
  | hl :: hls, ps, h => by
    simp only [List.mapM_cons, Option.bind_eq_bind, Option.bind_eq_some, pure,
      Option.some.injEq] at h
    obtain ⟨p, hp, pt, hpt, rfl⟩ := h
    simp only [List.map_cons]
    rw [← mapM_parseHeaderLine_eq hpt, ← parseHeaderLine_eq (k := p.1) (v := p.2)]
    rw [← hp]

theorem foldl_dictInsert_eq {κ ν : Type} [DecidableEq κ] :
    ∀ (ps : List (κ × ν)) (d : List (κ × ν)),
      (ps.map Prod.fst).Nodup → (∀ p ∈ ps, ∀ q ∈ d, q.1 ≠ p.1) →
      ps.foldl (fun d p => dictInsert p.1 p.2 d) d = d ++ ps
  | [], d, _, _ => by simp
  | p :: ps, d, hnd, hdisj => by
    have hins : dictInsert p.1 p.2 d = d ++ [p] := by
      have hfalse : (d.any (fun q => decide (q.1 = p.1))) = false := by
        simp only [List.any_eq_false, decide_eq_true_eq]
        intro q hq
        exact hdisj p (List.mem_cons_self p ps) q hq
      simp [dictInsert, hfalse]
    simp only [List.map_cons, List.nodup_cons] at hnd
    have ih := foldl_dictInsert_eq ps (d ++ [p]) hnd.2 (by
      intro r hr q hq
      rcases List.mem_append.mp hq with hq | hq
      · exact hdisj r (by simp [hr]) q hq
      · simp only [List.mem_singleton] at hq
        subst hq
        intro hcontra
        exact hnd.1 (hcontra ▸ List.mem_map_of_mem Prod.fst hr))
    simpa [hins, List.append_assoc] using ih

theorem head_roundtrip_raw (core body : List Nat) (pairs : List (List Nat × List Nat))
    (h2 : (split2 13 10 core).tail.mapM parseHeaderLine = some pairs) :
    (split2 13 10 core).headI ++ [13, 10]
        ++ (pairs.map (fun p => p.1 ++ [58, 32] ++ p.2 ++ [13, 10])).flatten
        ++ [13, 10] ++ body
      = core ++ [13, 10, 13, 10] ++ body := by
  obtain ⟨L, T, hLT⟩ := List.exists_cons_of_ne_nil (split2_ne_nil 13 10 core)
  have hcore : joinSep [13, 10] (L :: T) = core := by
    rw [← hLT]
    exact split2_join 13 10 core
  rw [hLT] at h2
  simp only [List.tail_cons] at h2
  have hT := mapM_parseHeaderLine_eq h2
  have hj := joinSep_cons_append [13, 10] L T
  have hHead : (split2 13 10 core).headI = L := by rw [hLT]; rfl
  rw [hHead, ← hcore]
  subst hT
  rw [List.map_map] at hj
  have hfun : ((fun t => t ++ [13, 10]) ∘ fun p : List Nat × List Nat =>
      p.1 ++ [58, 32] ++ p.2) = fun p : List Nat × List Nat =>
      p.1 ++ [58, 32] ++ p.2 ++ [13, 10] := rfl
  rw [hfun] at hj
  have hsplit : ([13, 10, 13, 10] : List Nat) = [13, 10] ++ [13, 10] := rfl
  rw [hsplit, ← List.append_assoc _ ([13, 10] : List Nat), hj]

/-- Claim C1: (amended). The claim as stated — `reconstruct_request(parse_request(h),
body) = h ++ body` for `h` ending in `\r\n\r\n` — fails because `parse_request`
rejects any head that still carries the terminator (the two empty trailing
lines fail the `key: value` split; the caller in `connection_context.py`
strips the terminator with `partition` before parsing).  Amended claim: for
every head `core` *without* the trailing `\r\n\r\n` whose request line has
exactly three whitespace-separated tokens, whose header lines each split on
`": "` into exactly two pieces, and whose header keys have no duplicates,
`parse_request` succeeds and reconstructing its parse with a body yields
exactly `core ++ "\r\n\r\n" ++ body`; and symmetrically for responses
(no request-line condition).
-/
theorem c1_head_roundtrip_amended
    (core body rcore rbody : List Nat)
    (pairs rpairs : List (List Nat × List Nat))
    (h1 : (wsTokens (split2 13 10 core).headI).length = 3)
    (h2 : (split2 13 10 core).tail.mapM parseHeaderLine = some pairs)
    (h3 : (pairs.map Prod.fst).Nodup)
    (h4 : (split2 13 10 rcore).tail.mapM parseHeaderLine = some rpairs)
    (h5 : (rpairs.map Prod.fst).Nodup) :
    parse_request core = some ((split2 13 10 core).headI, pairs) ∧
    reconstruct_request (split2 13 10 core).headI pairs body
      = core ++ [13, 10, 13, 10] ++ body ∧
    parse_response rcore = some ((split2 13 10 rcore).headI, rpairs) ∧
    reconstruct_response (split2 13 10 rcore).headI rpairs rbody
      = rcore ++ [13, 10, 13, 10] ++ rbody := by
  refine ⟨?_, ?_, ?_, ?_⟩
  · simp only [parse_request]
    rw [if_pos h1]
    simp only [h2]
    rw [foldl_dictInsert_eq pairs [] h3 (by simp)]
    simp
  · exact head_roundtrip_raw core body pairs h2
  · simp only [parse_response]
    simp only [h4]
    rw [foldl_dictInsert_eq rpairs [] h5 (by simp)]
    simp
  · exact head_roundtrip_raw rcore rbody rpairs h4

/-- A terminator-carrying head used to refute C1 as stated. -/
def c1CounterHead : List Nat := ascii "GET / HTTP/1.1\r\nHost: h\r\n\r\n"

/-- Claim C1: (counterexample to the claim as stated).  The head
`"GET / HTTP/1.1\r\nHost: h\r\n\r\n"` ends with `\r\n\r\n` and has no
duplicate header keys, yet `parse_request` applied to it fails (raises
`ValueError`, modelled by `none`), so `reconstruct_request(parse_request(h),
body)` is not defined, let alone equal to `h ++ body`.
-/
theorem c1_claim_counterexample :
    c1CounterHead.drop (c1CounterHead.length - 4) = [13, 10, 13, 10] ∧
    parse_request c1CounterHead = none := by
  decide

/-- Witness instantiating `c1_head_roundtrip_amended` at concrete heads. -/
theorem c1_head_roundtrip_amended_witness :
    ((wsTokens (split2 13 10 (ascii "GET / HTTP/1.1\r\nHost: h\r\nA: b")).headI).length = 3
      ∧ (split2 13 10 (ascii "GET / HTTP/1.1\r\nHost: h\r\nA: b")).tail.mapM parseHeaderLine
          = some [(ascii "Host", ascii "h"), (ascii "A", ascii "b")]
      ∧ (([(ascii "Host", ascii "h"), (ascii "A", ascii "b")].map Prod.fst).Nodup)
      ∧ (split2 13 10 (ascii "HTTP/1.1 200 OK\r\nC: d")).tail.mapM parseHeaderLine
          = some [(ascii "C", ascii "d")]
      ∧ (([(ascii "C", ascii "d")].map Prod.fst).Nodup))
    ∧ (parse_request (ascii "GET / HTTP/1.1\r\nHost: h\r\nA: b")
        = some ((split2 13 10 (ascii "GET / HTTP/1.1\r\nHost: h\r\nA: b")).headI,
            [(ascii "Host", ascii "h"), (ascii "A", ascii "b")]) ∧
      reconstruct_request (split2 13 10 (ascii "GET / HTTP/1.1\r\nHost: h\r\nA: b")).headI
          [(ascii "Host", ascii "h"), (ascii "A", ascii "b")] (ascii "xy")
        = ascii "GET / HTTP/1.1\r\nHost: h\r\nA: b" ++ [13, 10, 13, 10] ++ ascii "xy" ∧
      parse_response (ascii "HTTP/1.1 200 OK\r\nC: d")
        = some ((split2 13 10 (ascii "HTTP/1.1 200 OK\r\nC: d")).headI,
            [(ascii "C", ascii "d")]) ∧
      reconstruct_response (split2 13 10 (ascii "HTTP/1.1 200 OK\r\nC: d")).headI
          [(ascii "C", ascii "d")] []
        = ascii "HTTP/1.1 200 OK\r\nC: d" ++ [13, 10, 13, 10] ++ []) :=
  ⟨⟨by decide, by decide, by decide, by decide, by decide⟩,
    c1_head_roundtrip_amended
      (ascii "GET / HTTP/1.1\r\nHost: h\r\nA: b") (ascii "xy")
      (ascii "HTTP/1.1 200 OK\r\nC: d") []
      [(ascii "Host", ascii "h"), (ascii "A", ascii "b")] [(ascii "C", ascii "d")]
      (by decide) (by decide) (by decide) (by decide) (by decide)⟩

/-- ASCII word byte (`\w` of the regex in `get_cache_control.py`, restricted
to the ASCII inputs in play). -/
def isWordByte (c : Nat) : Bool :=
  (48 ≤ c && c ≤ 57) || (65 ≤ c && c ≤ 90) || (97 ≤ c && c ≤ 122) || c = 95

/-- Greedy `\d+` capture: the leading run of decimal digits. -/
def takeDigits (l : List Nat) : List Nat := l.takeWhile (fun c => 48 ≤ c && c ≤ 57)

/-- Decimal value of a digit run (Python `int(...)` on the captured group). -/
def natOfDigits (l : List Nat) : Nat := l.foldl (fun acc c => 10 * acc + (c - 48)) 0

/-- Try to match `max-age="?(\d+)` at the current position (the `"?` is
greedy; if a quote is present the digits must follow it, since a quote is not
a digit the backtrack of the regex engine also fails). -/
def matchMaxAgeHere (l : List Nat) : Option Nat :=
  if (ascii "max-age=").isPrefixOf l then
    let rest := l.drop 8
    let rest2 := match rest with
      | 34 :: r => r
      | _ => rest
    let digits := takeDigits rest2
    if digits.isEmpty then none else some (natOfDigits digits)
  else
    none

/-- Model of the `re.search` scan with pattern backslash-b `max-age="?` digits: scan positions left to right; a
position is eligible when the preceding byte is not a word byte (or the
position is the start), which is what `\b` requires in front of the literal
`m`. -/
def searchMaxAge : Bool → List Nat → Option Nat
  | _, [] => none
  | prevWord, c :: rest =>
    if !prevWord then
      match matchMaxAgeHere (c :: rest) with
      | some v => some v
      | none => searchMaxAge (isWordByte c) rest
    else
      searchMaxAge (isWordByte c) rest

/-- Model of `utilities/get_cache_control.py`: first word-boundary `max-age="?` digits match
(case-sensitive, as in the source: no `re.IGNORECASE` flag), value clamped
with `max(0, ...)`; `0` when absent. -/
def get_cache_control (directives : List Nat) : Int :=
  match searchMaxAge false directives with
  | some n => max 0 (n : Int)
  | none => 0

example : get_cache_control (ascii "must-revalidate, max-age=\"604800\"") = 604800 := by
  decide

example : get_cache_control (ascii "must-revalidate, max-age=604800") = 604800 := by
  decide

example : get_cache_control (ascii "must-revalidate") = 0 := by decide

example : get_cache_control (ascii " ") = 0 := by decide

theorem matchMaxAgeHere_isPrefix {l : List Nat} {v : Nat}
    (h : matchMaxAgeHere l = some v) : (ascii "max-age=").isPrefixOf l = true := by
  unfold matchMaxAgeHere at h
  by_cases hp : (ascii "max-age=").isPrefixOf l = true
  · exact hp
  · rw [Bool.not_eq_true] at hp
    simp [hp] at h

theorem searchMaxAge_containsSeq :
    ∀ (prevWord : Bool) (s : List Nat) (v : Nat),
      searchMaxAge prevWord s = some v → containsSeq (ascii "max-age=") s = true
  | _, [], v => by simp [searchMaxAge]
  | prevWord, c :: rest, v => by
    intro h
    unfold searchMaxAge at h
    unfold containsSeq
    by_cases hw : prevWord
    · subst hw
      simp only [Bool.not_true, if_neg] at h
      rw [searchMaxAge_containsSeq (isWordByte c) rest v h]
      simp
    · rw [Bool.not_eq_true] at hw
      subst hw
      simp only [Bool.not_false, if_pos] at h
      cases hm : matchMaxAgeHere (c :: rest) with
      | some w =>
        rw [matchMaxAgeHere_isPrefix hm]
        simp
      | none =>
        rw [hm] at h
        rw [searchMaxAge_containsSeq (isWordByte c) rest v h]
        simp

/-- Claim C8: (amended).  `get_cache_control` extracts the first
`max-age=N` / `max-age="N"` token at a word boundary **case-sensitively**
(the source compiles the pattern without `re.IGNORECASE`), returning `N`
clamped at zero and `0` when no such token is present; in particular a
directive spelled `Max-Age=60` yields `0`, not `60` as the claim states.
-/
theorem c8_cache_control_amended :
    (∀ s : List Nat, containsSeq (ascii "max-age=") s = false →
      get_cache_control s = 0) ∧
    (∀ s : List Nat, 0 ≤ get_cache_control s) ∧
    get_cache_control (ascii "max-age=60") = 60 ∧
    get_cache_control (ascii "must-revalidate, max-age=\"604800\"") = 604800 ∧
    get_cache_control (ascii "Max-Age=60") = 0 ∧
    get_cache_control (ascii "amax-age=7") = 0 ∧
    get_cache_control (ascii "a max-age=3, max-age=9") = 3 := by
  refine ⟨?_, ?_, by decide, by decide, by decide, by decide, by decide⟩
  · intro s h
    cases hs : searchMaxAge false s with
    | none => simp [get_cache_control, hs]
    | some v =>
      rw [searchMaxAge_containsSeq false s v hs] at h
      cases h
  · intro s
    unfold get_cache_control
    cases searchMaxAge false s with
    | none => simp
    | some v => simp

/-- Claim C8: (counterexample to the claim as stated).  The claim says the
`max-age` match is case-insensitive so that `Max-Age=60` yields `60`;
the regex in the code has no `re.IGNORECASE` flag and `get_cache_control`
returns `0` on `Max-Age=60`.
-/
theorem c8_claim_counterexample :
    get_cache_control (ascii "Max-Age=60") = 0 ∧
    ¬ get_cache_control (ascii "Max-Age=60") = 60 := by decide

/-- Witness instantiating `c8_cache_control_amended` on a directive without
any `max-age=` token. -/
theorem c8_cache_control_amended_witness :
    containsSeq (ascii "max-age=") (ascii "no-store") = false ∧
    get_cache_control (ascii "no-store") = 0 :=
  ⟨by decide, c8_cache_control_amended.1 (ascii "no-store") (by decide)⟩

/-- Model of `cache.py`: the `cache` attribute maps a `(method, path)` tuple to a
`(message, absolute-expiry)` tuple. -/
structure CacheState where
  entries : List ((List Nat × List Nat) × (List Nat × Int))
deriving DecidableEq, Inhabited

/-- Model of `Cache.get_message`: miss whenever the lower-cased method is `post`; on a hit
return the stored bytes if `time.time() < expiry`, else pop the entry and
miss.  Returns the result together with the possibly-mutated cache. -/
def cache_get_message (c : CacheState) (method path : List Nat) (now : Int) :
    List Nat × CacheState :=
  if asciiLower method ≠ ascii "post" then
    match dictGet (method, path) c.entries with
    | some (msg, expiry) =>
      if now < expiry then (msg, c)
      else ([], ⟨dictPop (method, path) c.entries⟩)
    | none => ([], c)
  else
    ([], c)

/-- Model of `Cache.add_message`: overwrite with expiry `time.time() + max_age`. -/
def cache_add_message (c : CacheState) (method path msg : List Nat)
    (maxAge now : Int) : CacheState :=
  ⟨dictInsert (method, path) (msg, now + maxAge) c.entries⟩

/-- Model of `_format_error_response` in `responses.py`; the RFC-1123 date string produced
by `datetime.now(...).strftime(...)` is an external-library result passed in
as `dateStr`. -/
def format_error_response (statusLine dateStr : List Nat) : List Nat :=
  ascii "HTTP/1.1 " ++ statusLine ++ ascii "\r\nServer: David" ++ [39]
    ++ ascii "s server\r\nDate: " ++ dateStr ++ ascii "\r\nContent-Length: 0\r\n\r\n"

/-- Model of `responses.bad_request`. -/
def bad_request (dateStr : List Nat) : List Nat :=
  format_error_response (ascii "400 Bad Request") dateStr

/-- Model of `responses.header_too_large`. -/
def header_too_large (dateStr : List Nat) : List Nat :=
  format_error_response (ascii "431 Request Header Fields Too Large") dateStr

/-- Model of `responses.bad_gateway`. -/
def bad_gateway (dateStr : List Nat) : List Nat :=
  format_error_response (ascii "502 Bad Gateway") dateStr

/-- Model of `responses.service_unavailable`. -/
def service_unavailable (dateStr : List Nat) : List Nat :=
  format_error_response (ascii "503 Service Unavailable") dateStr

/-- Model of `responses.http_version_not_supported`. -/
def http_version_not_supported (dateStr : List Nat) : List Nat :=
  format_error_response (ascii "505 HTTP Version Not Supported") dateStr

/-- A backend address: `(host bytes, port)`. -/
abbrev Addr := List Nat × Nat

/-- Model of `ConnectionPool.release_connection` in `connection_pool.py`.  The pool maps
an address to its queue of `(socket id, release time)` pairs; `addr in
self.pool` is lookup success (the `defaultdict` never auto-creates here
because the key is only read through the membership test).  Returns the new
pool and whether the socket was closed instead of pooled. -/
def release_connection (pool : List (Addr × List (Nat × Int))) (maxsize : Nat)
    (addr : Addr) (sock : Nat) (now : Int) :
    List (Addr × List (Nat × Int)) × Bool :=
  match dictGet addr pool with
  | some q =>
    if q.length < maxsize then (dictInsert addr (q ++ [(sock, now)]) pool, false)
    else (pool, true)
  | none => (pool, true)

/-- Selection policies (`load_balancer.py`).  An unknown algorithm string
makes `get_server` raise `ValueError`; `main.py` validates the CLI flag so
only these four values reach the load balancer. -/
inductive LBAlg where
  | LEAST_CONNECTIONS
  | RANDOM
  | IP_HASH
  | ROUND_ROBIN
deriving DecidableEq, Repr, Inhabited

/-- Model of the `load_balancer.py` state: ordered server list, per-server active
connection counts, and the round-robin counter. -/
structure LoadBalancerState where
  algorithm : LBAlg
  serversList : List Addr
  serversDict : List (Addr × Nat)
  rrCounter : Nat
deriving DecidableEq, Inhabited

/-- Model of `LoadBalancer._get_least_connections_server`:
`min(self.servers_dict, key=self.servers_dict.get)` — the first key attaining
the minimal count; `min` of an empty dict raises `ValueError`. -/
def get_least_connections_server (d : List (Addr × Nat)) : Except PyErr Addr :=
  match d with
  | [] => .error .valueError
  | p :: rest => .ok (rest.foldl (fun best q => if q.2 < best.2 then q else best) p).1

/-- Model of `LoadBalancer.get_server`.  Here `randomIdx` is the oracle for
the draw of `random.choice` (which raises `IndexError` on an empty list); `ipHash`
models `int(hashlib.md5(ip.encode()).hexdigest(), 16)` (a deterministic
external-library hash, injected as a parameter); `% 0` raises
`ZeroDivisionError`. -/
def lb_get_server (lb : LoadBalancerState) (ip : List Nat) (randomIdx : Nat)
    (ipHash : List Nat → Nat) : Except PyErr (Addr × LoadBalancerState) :=
  match lb.algorithm with
  | .LEAST_CONNECTIONS =>
    (get_least_connections_server lb.serversDict).map (fun a => (a, lb))
  | .RANDOM =>
    if lb.serversList.isEmpty then .error .indexError
    else .ok (lb.serversList.getD (randomIdx % lb.serversList.length) ([], 0), lb)
  | .IP_HASH =>
    if lb.serversList.length = 0 then .error .zeroDivisionError
    else .ok (lb.serversList.getD (ipHash ip % lb.serversList.length) ([], 0), lb)
  | .ROUND_ROBIN =>
    if lb.serversList.length = 0 then .error .zeroDivisionError
    else .ok (lb.serversList.getD (lb.rrCounter % lb.serversList.length) ([], 0),
      { lb with rrCounter := lb.rrCounter + 1 })

/-- Model of `LoadBalancer._increment_connection` (a `KeyError` is caught and logged). -/
def lb_increment (lb : LoadBalancerState) (addr : Addr) : LoadBalancerState :=
  match dictGet addr lb.serversDict with
  | some n => { lb with serversDict := dictInsert addr (n + 1) lb.serversDict }
  | none => lb

/-- Model of `LoadBalancer._remove_server`: delete from the dict and rebuild the list
from the keys of the dict; a `KeyError` (absent address) is caught and logged,
leaving the state unchanged. -/
def lb_remove_server (lb : LoadBalancerState) (addr : Addr) : LoadBalancerState :=
  if dictContains addr lb.serversDict then
    let d := dictPop addr lb.serversDict
    { lb with serversDict := d, serversList := d.map Prod.fst }
  else lb

/-- Repeated `get_server` calls (the simulation used for the round-robin
fairness property); stops on an exception. -/
def lb_sim (lb : LoadBalancerState) (ip : List Nat) (randomIdx : Nat)
    (ipHash : List Nat → Nat) : Nat → List Addr × LoadBalancerState
  | 0 => ([], lb)
  | m + 1 =>
    match lb_get_server lb ip randomIdx ipHash with
    | .ok (a, lb2) =>
      let r := lb_sim lb2 ip randomIdx ipHash m
      (a :: r.1, r.2)
    | .error _ => ([], lb)

/-- Claim C7: (confirmed).  `Cache.get_message` semantics: a `POST` lookup always
misses and leaves the cache untouched, whatever entries prior `add_message`
calls put there; otherwise a present, unexpired key returns the stored bytes;
a present but expired key is popped and misses; an absent key misses.
-/
theorem c7_cache_get_semantics (c : CacheState) (method path : List Nat) (now : Int) :
    ((cache_get_message c (ascii "POST") path now).1 = [] ∧
      (cache_get_message c (ascii "POST") path now).2 = c) ∧
    (asciiLower method ≠ ascii "post" →
      (∀ msg expiry, dictGet (method, path) c.entries = some (msg, expiry) →
        (now < expiry → cache_get_message c method path now = (msg, c)) ∧
        (¬ now < expiry →
          cache_get_message c method path now
            = ([], ⟨dictPop (method, path) c.entries⟩))) ∧
      (dictGet (method, path) c.entries = none →
        cache_get_message c method path now = ([], c))) := by
  have hpost : asciiLower (ascii "POST") = ascii "post" := by decide
  refine ⟨?_, ?_⟩
  · rw [cache_get_message, if_neg (by simp [hpost])]
    exact ⟨rfl, rfl⟩
  · intro hm
    refine ⟨?_, ?_⟩
    · intro msg expiry hget
      refine ⟨?_, ?_⟩
      · intro hlt
        rw [cache_get_message, if_pos hm, hget]
        simp [hlt]
      · intro hge
        rw [cache_get_message, if_pos hm, hget]
        simp [hge]
    · intro hget
      rw [cache_get_message, if_pos hm, hget]

/-- Witness instantiating `c7_cache_get_semantics`: a fresh unexpired `GET`
entry is returned, and the same key under `POST` misses. -/
theorem c7_cache_get_semantics_witness :
    (asciiLower (ascii "GET") ≠ ascii "post" ∧
      dictGet (ascii "GET", ascii "/x")
          (CacheState.mk [((ascii "GET", ascii "/x"), (ascii "m", 10))]).entries
        = some (ascii "m", 10) ∧
      (3 : Int) < 10) ∧
    cache_get_message (CacheState.mk [((ascii "GET", ascii "/x"), (ascii "m", 10))])
        (ascii "GET") (ascii "/x") 3
      = (ascii "m", CacheState.mk [((ascii "GET", ascii "/x"), (ascii "m", 10))]) :=
  ⟨⟨by decide, by decide, by decide⟩,
    (((c7_cache_get_semantics
        (CacheState.mk [((ascii "GET", ascii "/x"), (ascii "m", 10))])
        (ascii "GET") (ascii "/x") 3).2 (by decide)).1
      (ascii "m") 10 (by decide)).1 (by decide)⟩

/-- Claim C5: (code bug) — the claim is wrong about the no-queue case:
`release_connection` requires `addr in self.pool` *before* comparing the
queue length, so a release for an address with no queue (length 0, strictly
below any positive `max_size`) closes the socket and leaves the pool
unchanged instead of appending `(socket, now)`.  This contradicts both the
claim and the docstring of the method itself ("dropping connection if the pool is
full").
-/
theorem c5_release_no_queue_closes (maxsize : Nat) (addr : Addr) (sock : Nat)
    (now : Int) (_hpos : 0 < maxsize) :
    release_connection [] maxsize addr sock now = ([], true) ∧
    ([] : List (Addr × List (Nat × Int))).length = 0 := by
  refine ⟨?_, rfl⟩
  rw [release_connection]
  rfl

/-- Witness instantiating `c5_release_no_queue_closes` at `max_size = 10`
(the CLI default): the very first release for an address closes the socket. -/
theorem c5_release_no_queue_closes_witness :
    0 < 10 ∧
    release_connection [] 10 (ascii "127.0.0.1", 8080) 7 5 = ([], true) :=
  ⟨by decide, (c5_release_no_queue_closes 10 (ascii "127.0.0.1", 8080) 7 5 (by decide)).1⟩

theorem lb_sim_rr (servers : List Addr) (d : List (Addr × Nat)) (ip : List Nat)
    (ri : Nat) (ihash : List Nat → Nat) (hne : servers.length ≠ 0) :
    ∀ (m c : Nat),
      (lb_sim ⟨.ROUND_ROBIN, servers, d, c⟩ ip ri ihash m).1
        = (List.range m).map (fun i => servers.getD ((c + i) % servers.length) ([], 0))
  | 0, _ => by simp [lb_sim]
  | m + 1, c => by
    have ihm := lb_sim_rr servers d ip ri ihash hne m (c + 1)
    rw [lb_sim]
    simp only [lb_get_server, if_neg hne]
    rw [List.range_succ_eq_map, List.map_cons, List.map_map]
    refine congrArg₂ _ (by rw [Nat.add_zero]) ?_
    rw [ihm]
    apply List.map_congr_left
    intro i _
    simp only [Function.comp_apply]
    congr 2
    omega

theorem cycle_block_eq_rotate (servers : List Addr) (hne : servers.length ≠ 0)
    (c : Nat) :
    (List.range servers.length).map
        (fun i => servers.getD ((c + i) % servers.length) ([], 0))
      = servers.rotate c := by
  apply List.ext_getElem
  · simp
  · intro i h1 h2
    simp only [List.getElem_map, List.getElem_range]
    rw [List.getD_eq_getElem]
    · rw [List.getElem_rotate]
      congr 1
      rw [Nat.add_comm]
    · exact Nat.mod_lt _ (Nat.pos_of_ne_zero hne)

theorem count_one_of_nodup_mem (a : Addr) :
    ∀ (l : List Addr), l.Nodup → a ∈ l → l.count a = 1
  | [], _, h => by cases h
  | x :: t, hnd, hmem => by
    rw [List.count_cons]
    rcases List.mem_cons.mp hmem with rfl | hmem2
    · have hnotin : a ∉ t := (List.nodup_cons.mp hnd).1
      rw [List.count_eq_zero_of_not_mem hnotin]
      simp
    · have ht := count_one_of_nodup_mem a t (List.nodup_cons.mp hnd).2 hmem2
      rw [ht]
      have hne2 : x ≠ a := by
        intro hxa
        subst hxa
        exact (List.nodup_cons.mp hnd).1 hmem2
      simp [hne2]

theorem count_cycles (servers : List Addr) (hne : servers.length ≠ 0)
    (hnd : servers.Nodup) (a : Addr) (ha : a ∈ servers) :
    ∀ (k c : Nat),
      ((List.range (k * servers.length)).map
        (fun i => servers.getD ((c + i) % servers.length) ([], 0))).count a = k
  | 0, _ => by simp
  | k + 1, c => by
    have ih := count_cycles servers hne hnd a ha k c
    rw [Nat.succ_mul, List.range_add, List.map_append, List.count_append, ih]
    rw [List.map_map]
    have hmap : ((fun i => servers.getD ((c + i) % servers.length) ([], 0)) ∘
        (fun x => k * servers.length + x))
        = fun i => servers.getD ((c + i) % servers.length) ([], 0) := by
      funext i
      simp only [Function.comp_apply]
      congr 1
      rw [show c + (k * servers.length + i) = c + i + k * servers.length by ring,
        Nat.add_mul_mod_self_right]
    rw [hmap, cycle_block_eq_rotate servers hne c]
    have h1 : List.count a (servers.rotate c) = List.count a servers := by
      rw [List.count_eq_countP, List.count_eq_countP]
      exact (List.rotate_perm servers c).countP_eq _
    have h2 : List.count a servers = 1 := count_one_of_nodup_mem a servers hnd ha
    omega

/-- Claim C9: (confirmed).  Under `ROUND_ROBIN` with a fixed non-empty duplicate-free
backend list, `get_server` returns `servers_list[counter mod N]` and then
increments the counter; consequently over `k·N` successive calls every server
is returned exactly `k` times.
-/
theorem c9_round_robin_fairness (lb : LoadBalancerState) (ip : List Nat)
    (ri k : Nat) (ihash : List Nat → Nat)
    (halg : lb.algorithm = .ROUND_ROBIN)
    (hne : lb.serversList ≠ [])
    (hnd : lb.serversList.Nodup) :
    lb_get_server lb ip ri ihash
      = .ok (lb.serversList.getD (lb.rrCounter % lb.serversList.length) ([], 0),
          { lb with rrCounter := lb.rrCounter + 1 }) ∧
    ∀ a ∈ lb.serversList,
      (lb_sim lb ip ri ihash (k * lb.serversList.length)).1.count a = k := by
  obtain ⟨alg, sl, sd, rc⟩ := lb
  simp only at halg hne hnd
  subst halg
  have hne' : sl.length ≠ 0 := by
    intro h0
    exact hne (List.length_eq_zero.mp h0)
  constructor
  · simp [lb_get_server, hne', hne]
  · intro a ha
    rw [lb_sim_rr sl sd ip ri ihash hne' (k * sl.length) rc]
    exact count_cycles sl hne' hnd a ha k rc

/-- A concrete two-server load balancer used to witness `c9_round_robin_fairness`. -/
def c9SampleLB : LoadBalancerState :=
  ⟨.ROUND_ROBIN, [(ascii "10.0.0.1", 8001), (ascii "10.0.0.2", 8002)],
    [((ascii "10.0.0.1", 8001), 0), ((ascii "10.0.0.2", 8002), 0)], 5⟩

/-- Witness instantiating `c9_round_robin_fairness`: two servers, four calls,
each server returned exactly twice. -/
theorem c9_round_robin_fairness_witness :
    (c9SampleLB.algorithm = .ROUND_ROBIN ∧ c9SampleLB.serversList ≠ [] ∧
      c9SampleLB.serversList.Nodup ∧
      (ascii "10.0.0.1", 8001) ∈ c9SampleLB.serversList) ∧
    (lb_sim c9SampleLB [] 0 (fun _ => 0)
        (2 * c9SampleLB.serversList.length)).1.count (ascii "10.0.0.1", 8001) = 2 :=
  ⟨⟨rfl, by decide, by decide, by decide⟩,
    (c9_round_robin_fairness c9SampleLB [] 0 2 (fun _ => 0) rfl (by decide)
      (by decide)).2 (ascii "10.0.0.1", 8001) (by decide)⟩

/-- Model of `connection_context.ProcessingStates`. -/
inductive PState where
  | TLS_HANDSHAKE
  | READ_REQUEST
  | CONNECT_BACKEND
  | WRITE_BACKEND
  | READ_BACKEND
  | WRITE_CLIENT
  | CLEANUP
deriving DecidableEq, Repr, Inhabited

/-- Per-connection mutable state of `ConnectionContext` (the fields read or
written by the embedded methods).  `keepalive = none` models the attribute
never having been assigned — reading it then raises `AttributeError`;
`backendSock` is whether `self.backend_sock` is not `None`. -/
structure ConnCtx where
  state : PState
  requestBuffer : List Nat
  responseBuffer : List Nat
  requestHeaderParsed : Bool
  requestHeadRawLength : Nat
  requestContentLength : Int
  requestHeadersLower : List (List Nat × List Nat)
  keepalive : Option Bool
  method : List Nat
  path : List Nat
  backendSock : Bool
  backendAddr : Option Addr
  retries : Nat
deriving DecidableEq, Inhabited

/-- Process-wide state shared by all contexts: the `ConnectionContext` class
attributes `FAILED_SERVERS`, `LOAD_BALANCER`, `CACHE`, `FAILURE_THRESHOLD`
and `MAX_RETRIES`.  `FAILED_SERVERS` is keyed by `self.backend_addr`, an
optional address. -/
structure Globals where
  failedServers : List (Option Addr × Nat)
  lb : LoadBalancerState
  cache : CacheState
  failureThreshold : Nat
  maxRetries : Nat
deriving DecidableEq, Inhabited

/-- Python `int(s)` on a decimal string: optional sign then one or more
digits (the whitespace/underscore tolerance of CPython is not exercised by any
caller and is not modelled).  `none` models the raised `ValueError`. -/
def parseIntBytes (s : List Nat) : Option Int :=
  match s with
  | 45 :: rest =>
    if !rest.isEmpty && rest.all (fun c => 48 ≤ c && c ≤ 57) then
      some (-(natOfDigits rest : Int))
    else none
  | 43 :: rest =>
    if !rest.isEmpty && rest.all (fun c => 48 ≤ c && c ≤ 57) then
      some ((natOfDigits rest : Int))
    else none
  | _ =>
    if !s.isEmpty && s.all (fun c => 48 ≤ c && c ≤ 57) then
      some ((natOfDigits s : Int))
    else none

/-- Model of `ConnectionContext._init_backend_conn`: ask the load balancer for a
server; `ValueError`/`ZeroDivisionError` is caught and converted to the
literal placeholder bytes `503 service unavailable` buffered for the client
with a jump to `WRITE_CLIENT`; any other exception propagates.  On success
the active count of the chosen server is incremented, a fresh non-blocking backend
socket is created and the state moves to `CONNECT_BACKEND`. -/
def init_backend_conn (ctx : ConnCtx) (g : Globals) (clientIp : List Nat)
    (randomIdx : Nat) (ipHash : List Nat → Nat) : Except PyErr (ConnCtx × Globals) :=
  match lb_get_server g.lb clientIp randomIdx ipHash with
  | .error e =>
    if e = .valueError ∨ e = .zeroDivisionError then
      .ok ({ ctx with
              responseBuffer := ascii "503 service unavailable"
              state := .WRITE_CLIENT }, g)
    else
      .error e
  | .ok (addr, lb2) =>
    .ok ({ ctx with
            backendAddr := some addr
            state := .CONNECT_BACKEND
            backendSock := true },
         { g with lb := lb_increment lb2 addr })

/-- The failure bookkeeping of `ConnectionContext._confirm_backend_conn`
(the branch taken on a nonzero `SO_ERROR` with retries left): bump
`FAILED_SERVERS[self.backend_addr]`; when the new count **exceeds**
`FAILURE_THRESHOLD` (strict `>`), remove the address from the load balancer
and delete the counter entry; close and clear the backend socket and
address; increment the retry counter. -/
def record_backend_failure (ctx : ConnCtx) (g : Globals) : ConnCtx × Globals :=
  let fs := dictInsert ctx.backendAddr
      ((dictGet ctx.backendAddr g.failedServers).getD 0 + 1) g.failedServers
  let hit := ((dictGet ctx.backendAddr fs).getD 0 > g.failureThreshold)
      ∧ ctx.backendAddr ≠ none
  let lbNew := if hit then lb_remove_server g.lb (ctx.backendAddr.getD ([], 0)) else g.lb
  let fsNew := if hit then dictPop ctx.backendAddr fs else fs
  ({ ctx with backendSock := false, backendAddr := none, retries := ctx.retries + 1 },
   { g with failedServers := fsNew, lb := lbNew })

/-- Model of `ConnectionContext._confirm_backend_conn`, where `soErr` is the fetched
`SO_ERROR` value.  Success moves to `WRITE_BACKEND`; a failure with retries
left records the failure and re-enters `_init_backend_conn`; exhausted
retries buffer the literal placeholder bytes `502 bad gateway` and move to
`WRITE_CLIENT`.  (With `backend_sock` `None` the `elif` branch reads the
never-assigned local `error_code` in its log line: `UnboundLocalError`,
modelled as `nameError`.) -/
def confirm_backend_conn (ctx : ConnCtx) (g : Globals) (soErr : Nat)
    (clientIp : List Nat) (randomIdx : Nat) (ipHash : List Nat → Nat) :
    Except PyErr (ConnCtx × Globals) :=
  if ctx.backendSock = true ∧ soErr = 0 then
    .ok ({ ctx with state := .WRITE_BACKEND }, g)
  else if ctx.retries < g.maxRetries then
    if ctx.backendSock = true then
      let r := record_backend_failure ctx g
      init_backend_conn r.1 r.2 clientIp randomIdx ipHash
    else
      .error .nameError
  else
    .ok ({ ctx with
            responseBuffer := ascii "502 bad gateway"
            state := .WRITE_CLIENT }, g)

/-- Model of the generator-expression lookup of the first key whose lower-cased
form is `connection`, followed by popping it from `request_headers`: drop the first pair whose lower-cased key is
`connection`. -/
def popConnKey : List (List Nat × List Nat) → List (List Nat × List Nat)
  | [] => []
  | p :: rest =>
    if asciiLower p.1 = ascii "connection" then rest
    else p :: popConnKey rest

/-- Model of `ConnectionContext._read_request`, where `data` is the chunk `recv` returned
(empty chunk = peer closed, `_close`, modelled as `CLEANUP`); `now` feeds the
cache lookup; `clientIp`, `randomIdx` and `ipHash` feed
`_init_backend_conn`.  On the re-entry path (head already parsed by an
earlier call) a completed body reaches the `X-Forwarded-For` write whose
locals `request_line`/`request_headers` were never assigned in this call:
`UnboundLocalError`, modelled as `nameError`. -/
def read_request (ctx : ConnCtx) (g : Globals) (data : List Nat) (now : Int)
    (clientIp : List Nat) (randomIdx : Nat) (ipHash : List Nat → Nat) :
    Except PyErr (ConnCtx × Globals) :=
  if data.isEmpty then
    .ok ({ ctx with state := .CLEANUP }, g)
  else
    let ctx1 := { ctx with requestBuffer := ctx.requestBuffer ++ data }
    if containsSeq [13, 10, 13, 10] ctx1.requestBuffer then
      if ctx1.requestHeaderParsed then
        if (ctx1.requestBuffer.length : Int) <
            (ctx1.requestHeadRawLength : Int) + 4 + ctx1.requestContentLength then
          .ok (ctx1, g)
        else
          .error .nameError
      else
        let headRaw := takeUntilSeq [13, 10, 13, 10] ctx1.requestBuffer
        let ctx2 := { ctx1 with requestHeadRawLength := headRaw.length }
        match parse_request headRaw with
        | none =>
          .ok ({ ctx2 with
                  responseBuffer := ascii "400 bad request"
                  state := .WRITE_CLIENT }, g)
        | some (reqLine, reqHeaders) =>
          let toks := wsTokens reqLine
          let lower := reqHeaders.map (fun p => (asciiLower p.1, asciiLower p.2))
          let ctx3 := { ctx2 with
              method := toks.headI
              path := toks.tail.headI
              requestHeadersLower := lower }
          let clParsed :=
            match dictGet (ascii "content-length") lower with
            | none => some (0 : Int)
            | some v => parseIntBytes v
          match clParsed with
          | none => .ok (ctx3, g)
          | some cl =>
            let ctx4 := { ctx3 with requestContentLength := cl }
            let hasConn := dictContains (ascii "connection") lower
            let ctx5 :=
              if hasConn then
                { ctx4 with
                  keepalive := some (decide
                    (dictGet (ascii "connection") lower ≠ some (ascii "close")))
                  requestHeadersLower := dictPop (ascii "connection") lower }
              else ctx4
            let reqHeaders2 := if hasConn then popConnKey reqHeaders else reqHeaders
            let cacheRes := cache_get_message g.cache ctx5.method ctx5.path now
            let g2 := { g with cache := cacheRes.2 }
            if !cacheRes.1.isEmpty then
              .ok ({ ctx5 with
                      responseBuffer := cacheRes.1
                      state := .WRITE_CLIENT }, g2)
            else
              let ctx6 := { ctx5 with requestHeaderParsed := true }
              if (ctx6.requestBuffer.length : Int) <
                  (ctx6.requestHeadRawLength : Int) + 4 + ctx6.requestContentLength then
                .ok (ctx6, g2)
              else
                let reqHeaders3 := dictInsert (ascii "X-Forwarded-For")
                    (clientIp.filter (fun c => decide (c ≠ 39))) reqHeaders2
                let reqHeaders4 := dictInsert (ascii "X-Forwarded-Proto")
                    (ascii "https") reqHeaders3
                let body := ctx6.requestBuffer.drop (ctx6.requestHeadRawLength + 4)
                let ctx7 := { ctx6 with
                    requestBuffer := reconstruct_request reqLine reqHeaders4 body }
                if ctx7.backendSock = false then
                  init_backend_conn ctx7 g2 clientIp randomIdx ipHash
                else
                  .ok ({ ctx7 with state := .WRITE_BACKEND }, g2)
    else
      .ok (ctx1, g)

/-- Model of `ConnectionContext._write_client`, where `sent = none` models a
`BlockingIOError` from `send` (`pass`); `sent = some n` is the byte count
`send` returned.  `send` returning `0` with a pending buffer makes the
method return immediately.  When the buffer has drained: keep-alive `True`
resets the per-request fields (`_init_connection_info`) and re-enters
`READ_REQUEST`; otherwise — including the `AttributeError` when
`self.keepalive` was never assigned — the state becomes `CLEANUP`. -/
def write_client (ctx : ConnCtx) (sent : Option Nat) : ConnCtx :=
  if !ctx.responseBuffer.isEmpty && sent == some 0 then
    ctx
  else
    let ctx1 :=
      if !ctx.responseBuffer.isEmpty then
        match sent with
        | some n => { ctx with responseBuffer := ctx.responseBuffer.drop n }
        | none => ctx
      else ctx
    if ctx1.responseBuffer.isEmpty then
      match ctx1.keepalive with
      | some true =>
        { ctx1 with
          state := .READ_REQUEST
          requestBuffer := []
          responseBuffer := []
          requestContentLength := 0
          requestHeaderParsed := false
          retries := 0 }
      | _ => { ctx1 with state := .CLEANUP }
    else
      ctx1

/-- Extract the context of a non-exceptional step result. -/
def exOkCtx (r : Except PyErr (ConnCtx × Globals)) : ConnCtx :=
  match r with
  | .ok p => p.1
  | .error _ => default

/-- Extract the full result of a non-exceptional step. -/
def exOkPair (r : Except PyErr (ConnCtx × Globals)) : ConnCtx × Globals :=
  match r with
  | .ok p => p
  | .error _ => default

/-- Claim C2: (the claimed behaviour does not exist in the code).  `_read_request`
has no maximum-head-size check at all: a request buffer that exceeds 8 KiB
without a `\r\n\r\n` terminator just keeps accumulating — the step returns
with only the buffer grown, the state still `READ_REQUEST`-dispatchable and
no 431 (nor any) response buffered.  (`responses.header_too_large` exists but
is never called.)
-/
theorem c2_no_head_size_limit (ctx : ConnCtx) (g : Globals) (data : List Nat)
    (now : Int) (clientIp : List Nat) (randomIdx : Nat) (ipHash : List Nat → Nat)
    (hdata : data ≠ [])
    (hnodelim : containsSeq [13, 10, 13, 10] (ctx.requestBuffer ++ data) = false)
    (hbig : 8192 < (ctx.requestBuffer ++ data).length) :
    read_request ctx g data now clientIp randomIdx ipHash
      = .ok ({ ctx with requestBuffer := ctx.requestBuffer ++ data }, g) ∧
    ({ ctx with requestBuffer := ctx.requestBuffer ++ data } : ConnCtx).state = ctx.state ∧
    ({ ctx with requestBuffer := ctx.requestBuffer ++ data } : ConnCtx).responseBuffer
      = ctx.responseBuffer ∧
    8192 < ({ ctx with requestBuffer := ctx.requestBuffer ++ data } : ConnCtx).requestBuffer.length := by
  have h1 : data.isEmpty = false := by
    cases data with
    | nil => exact absurd rfl hdata
    | cons a t => rfl
  refine ⟨?_, rfl, rfl, hbig⟩
  rw [read_request, h1]
  simp [hnodelim]

/-- The 9 KiB of non-delimiter header bytes used to witness
`c2_no_head_size_limit`. -/
theorem containsSeq_crlf2_replicate : ∀ n,
    containsSeq [13, 10, 13, 10] (List.replicate n 65) = false
  | 0 => rfl
  | n + 1 => by
    rw [List.replicate_succ, containsSeq, containsSeq_crlf2_replicate n]
    simp [List.isPrefixOf]

/-- Witness instantiating `c2_no_head_size_limit` on a fresh context receiving
9216 bytes of `A` with no terminator. -/
theorem c2_no_head_size_limit_witness :
    (List.replicate 9216 65 ≠ [] ∧
      containsSeq [13, 10, 13, 10]
        ((default : ConnCtx).requestBuffer ++ List.replicate 9216 65) = false ∧
      8192 < ((default : ConnCtx).requestBuffer ++ List.replicate 9216 65).length) ∧
    read_request default default (List.replicate 9216 65) 0 [] 0 (fun _ => 0)
      = .ok ({ (default : ConnCtx) with
          requestBuffer := (default : ConnCtx).requestBuffer ++ List.replicate 9216 65 },
        default) := by
  have hrep : List.replicate 9216 65 ≠ [] := by
    intro h
    have hl := congrArg List.length h
    rw [List.length_replicate] at hl
    simp at hl
  have hbuf : (default : ConnCtx).requestBuffer = [] := rfl
  have hcontains : containsSeq [13, 10, 13, 10]
      ((default : ConnCtx).requestBuffer ++ List.replicate 9216 65) = false := by
    rw [hbuf, List.nil_append]
    exact containsSeq_crlf2_replicate 9216
  have hlen : 8192 < ((default : ConnCtx).requestBuffer ++ List.replicate 9216 65).length := by
    rw [hbuf, List.nil_append, List.length_replicate]
    norm_num
  exact ⟨⟨hrep, hcontains, hlen⟩,
    (c2_no_head_size_limit default default (List.replicate 9216 65) 0 [] 0 (fun _ => 0)
      hrep hcontains hlen).1⟩

/-- Claim C3: (amended).  With an empty backend list, `get_server` fails with
`ZeroDivisionError` under `ROUND_ROBIN` and `IP_HASH` (`% 0`) and with
`ValueError` under `LEAST_CONNECTIONS` (`min` of an empty dict) — all caught
by the `except (ValueError, ZeroDivisionError)` handler of `_init_backend_conn`, which
buffers the 503 placeholder and jumps to `WRITE_CLIENT`.  Under `RANDOM`,
however, `random.choice([])` raises `IndexError`, which that handler does
**not** catch: the exception propagates and no 503 is buffered.
-/
theorem c3_empty_backend_amended (ctx : ConnCtx) (g : Globals) (clientIp : List Nat)
    (randomIdx : Nat) (ipHash : List Nat → Nat)
    (hl : g.lb.serversList = []) (hd : g.lb.serversDict = []) :
    ((g.lb.algorithm = .ROUND_ROBIN ∨ g.lb.algorithm = .LEAST_CONNECTIONS ∨
        g.lb.algorithm = .IP_HASH) →
      init_backend_conn ctx g clientIp randomIdx ipHash
        = .ok ({ ctx with
            responseBuffer := ascii "503 service unavailable"
            state := .WRITE_CLIENT }, g)) ∧
    (g.lb.algorithm = .RANDOM →
      init_backend_conn ctx g clientIp randomIdx ipHash = .error .indexError) := by
  constructor
  · intro halg
    rcases halg with h | h | h <;>
      simp [init_backend_conn, lb_get_server, h, hl, hd, get_least_connections_server,
        Except.map]
  · intro h
    simp [init_backend_conn, lb_get_server, h, hl]

/-- Fresh context used by the C3 theorems. -/
def c3Ctx : ConnCtx := default

/-- Globals with the `RANDOM` policy and an empty backend list. -/
def c3RandomG : Globals := ⟨[], ⟨.RANDOM, [], [], 0⟩, ⟨[]⟩, 3, 5⟩

/-- Globals with the `ROUND_ROBIN` policy and an empty backend list. -/
def c3RRG : Globals := ⟨[], ⟨.ROUND_ROBIN, [], [], 0⟩, ⟨[]⟩, 3, 5⟩

/-- Claim C3: (counterexample to the claim as stated).  Under `RANDOM` with an empty
backend list, backend initiation does **not** buffer a 503 and move to
`WRITE_CLIENT`: the `IndexError` from `random.choice` escapes the
`except (ValueError, ZeroDivisionError)` handler.
-/
theorem c3_claim_counterexample :
    init_backend_conn c3Ctx c3RandomG [] 0 (fun _ => 0) = .error .indexError := rfl

/-- Witness instantiating `c3_empty_backend_amended` under `ROUND_ROBIN`. -/
theorem c3_empty_backend_amended_witness :
    (c3RRG.lb.serversList = [] ∧ c3RRG.lb.serversDict = [] ∧
      c3RRG.lb.algorithm = .ROUND_ROBIN) ∧
    init_backend_conn c3Ctx c3RRG [] 0 (fun _ => 0)
      = .ok ({ c3Ctx with
          responseBuffer := ascii "503 service unavailable"
          state := .WRITE_CLIENT }, c3RRG) :=
  ⟨⟨rfl, rfl, rfl⟩,
    (c3_empty_backend_amended c3Ctx c3RRG [] 0 (fun _ => 0) rfl rfl).1 (Or.inl rfl)⟩

theorem find?_map_overwrite {κ ν : Type} [DecidableEq κ] (k : κ) (v : ν) :
    ∀ d : List (κ × ν), d.any (fun p => decide (p.1 = k)) = true →
      (d.map (fun p => if p.1 = k then (k, v) else p)).find?
        (fun p => decide (p.1 = k)) = some (k, v)
  | [], h => by simp at h
  | q :: t, h => by
    by_cases hq : q.1 = k
    · simp [List.find?_cons, hq]
    · rw [List.any_cons] at h
      have ht : t.any (fun p => decide (p.1 = k)) = true := by
        rcases Bool.or_eq_true_iff.mp h with h1 | h1
        · exact absurd (of_decide_eq_true h1) hq
        · exact h1
      simp [List.find?_cons, hq, find?_map_overwrite k v t ht]

theorem dictGet_append_single {κ ν : Type} [DecidableEq κ] (k : κ) (v : ν) :
    ∀ d : List (κ × ν), d.any (fun p => decide (p.1 = k)) = false →
      dictGet k (d ++ [(k, v)]) = some v
  | [], _ => by simp [dictGet, List.find?]
  | q :: t, h => by
    rw [List.any_cons, Bool.or_eq_false_iff] at h
    have ih := dictGet_append_single k v t h.2
    unfold dictGet at ih ⊢
    rw [List.cons_append, List.find?_cons, h.1]
    exact ih

theorem dictGet_insert {κ ν : Type} [DecidableEq κ] (k : κ) (v : ν) (d : List (κ × ν)) :
    dictGet k (dictInsert k v d) = some v := by
  unfold dictInsert
  by_cases hc : d.any (fun p => decide (p.1 = k)) = true
  · rw [if_pos hc]
    unfold dictGet
    rw [find?_map_overwrite k v d hc]
    rfl
  · rw [if_neg hc]
    exact dictGet_append_single k v d (by rwa [Bool.not_eq_true] at hc)

theorem dictGet_pop {κ ν : Type} [DecidableEq κ] (k : κ) (d : List (κ × ν)) :
    dictGet k (dictPop k d) = none := by
  unfold dictGet dictPop
  rw [Option.map_eq_none']
  rw [List.find?_eq_none]
  intro x hx
  rw [List.mem_filter] at hx
  simp only [decide_eq_true_eq] at hx ⊢
  exact hx.2

/-- Claim C4: (amended).  On a backend connect failure (`SO_ERROR ≠ 0`) **with a
retry remaining**, `_confirm_backend_conn` increments the failure counter for
the backend address and then re-enters `_init_backend_conn`; the address is
removed from the load balancer and its counter entry cleared only when the
new count **exceeds** the configured threshold (count = threshold + 1), not
when it merely reaches it.  On the final failure (retries exhausted) the
counter is not incremented at all: the step buffers the 502 placeholder and
returns the globals — failure map included — unchanged (second conjunct).
-/
theorem c4_failure_threshold_amended (ctx : ConnCtx) (g : Globals) (soErr : Nat)
    (clientIp : List Nat) (randomIdx : Nat) (ipHash : List Nat → Nat) (a : Addr)
    (hsock : ctx.backendSock = true) (herr : soErr ≠ 0)
    (haddr : ctx.backendAddr = some a) :
    (ctx.retries < g.maxRetries →
      confirm_backend_conn ctx g soErr clientIp randomIdx ipHash
        = init_backend_conn (record_backend_failure ctx g).1
            (record_backend_failure ctx g).2 clientIp randomIdx ipHash ∧
      dictGet (some a) (record_backend_failure ctx g).2.failedServers
        = (if (dictGet (some a) g.failedServers).getD 0 + 1 > g.failureThreshold
           then none
           else some ((dictGet (some a) g.failedServers).getD 0 + 1)) ∧
      (record_backend_failure ctx g).2.lb
        = (if (dictGet (some a) g.failedServers).getD 0 + 1 > g.failureThreshold
           then lb_remove_server g.lb a
           else g.lb)) ∧
    (¬ ctx.retries < g.maxRetries →
      confirm_backend_conn ctx g soErr clientIp randomIdx ipHash
        = .ok ({ ctx with
            responseBuffer := ascii "502 bad gateway"
            state := .WRITE_CLIENT }, g)) := by
  constructor
  · intro hret
    refine ⟨?_, ?_, ?_⟩
    · rw [confirm_backend_conn, if_neg (by simp [herr]), if_pos hret, if_pos hsock]
    · simp only [record_backend_failure, haddr, dictGet_insert, Option.getD_some]
      by_cases hth : g.failureThreshold < (dictGet (some a) g.failedServers).getD 0 + 1
      · simp [hth, dictGet_pop]
      · simp [hth, dictGet_insert]
    · simp only [record_backend_failure, haddr, dictGet_insert, Option.getD_some]
      by_cases hth : g.failureThreshold < (dictGet (some a) g.failedServers).getD 0 + 1
      · simp [hth]
      · simp [hth]
  · intro hnret
    rw [confirm_backend_conn, if_neg (by simp [herr]), if_neg hnret]

/-- The address used by the C4 theorems. -/
def c4Addr : Addr := (ascii "10.0.0.9", 9000)

/-- A context awaiting backend-connect confirmation for `c4Addr`. -/
def c4Ctx : ConnCtx := { (default : ConnCtx) with
  state := .CONNECT_BACKEND
  backendSock := true
  backendAddr := some c4Addr }

/-- Globals with failure threshold 2 and one prior failure recorded for
`c4Addr`. -/
def c4G : Globals :=
  ⟨[(some c4Addr, 1)], ⟨.ROUND_ROBIN, [c4Addr], [(c4Addr, 0)], 0⟩, ⟨[]⟩, 2, 5⟩

/-- The same confirmation context with its retries exhausted
(`retries = MAX_RETRIES`). -/
def c4ExhCtx : ConnCtx := { c4Ctx with retries := 5 }

/-- Claim C4: (counterexample to the claim as stated).  With threshold 2 and one
failure already recorded, a second connect failure brings the counter to
exactly the threshold (2) — yet the address is **not** removed from the load
balancer and its counter entry is **not** cleared; eviction only happens on
the next (third) failure, when the counter exceeds the threshold.  And on a
connect failure with retries exhausted the counter is **not** incremented at
all: it still reads 1 afterwards, refuting the unconditional-increment clause
of the claim as well.
-/
theorem c4_claim_counterexample :
    c4G.failureThreshold = 2 ∧
    dictGet (some c4Addr) (record_backend_failure c4Ctx c4G).2.failedServers = some 2 ∧
    dictContains c4Addr (record_backend_failure c4Ctx c4G).2.lb.serversDict = true ∧
    (record_backend_failure c4Ctx c4G).2.lb.serversList = [c4Addr] ∧
    c4ExhCtx.retries = c4G.maxRetries ∧
    dictGet (some c4Addr) c4G.failedServers = some 1 ∧
    dictGet (some c4Addr)
        (exOkPair (confirm_backend_conn c4ExhCtx c4G 1 [] 0 (fun _ => 0))).2.failedServers
      = some 1 := by
  decide

/-- Witness instantiating `c4_failure_threshold_amended` at `c4Ctx`/`c4G`
(retry remaining) and at `c4ExhCtx`/`c4G` (retries exhausted). -/
theorem c4_failure_threshold_amended_witness :
    (c4Ctx.backendSock = true ∧ (1 : Nat) ≠ 0 ∧ c4Ctx.backendAddr = some c4Addr ∧
      c4Ctx.retries < c4G.maxRetries ∧ ¬ c4ExhCtx.retries < c4G.maxRetries) ∧
    confirm_backend_conn c4Ctx c4G 1 [] 0 (fun _ => 0)
      = init_backend_conn (record_backend_failure c4Ctx c4G).1
          (record_backend_failure c4Ctx c4G).2 [] 0 (fun _ => 0) ∧
    confirm_backend_conn c4ExhCtx c4G 1 [] 0 (fun _ => 0)
      = .ok ({ c4ExhCtx with
          responseBuffer := ascii "502 bad gateway"
          state := .WRITE_CLIENT }, c4G) :=
  ⟨⟨rfl, by decide, rfl, by decide, by decide⟩,
    ((c4_failure_threshold_amended c4Ctx c4G 1 [] 0 (fun _ => 0) c4Addr rfl (by decide)
      rfl).1 (by decide)).1,
    (c4_failure_threshold_amended c4ExhCtx c4G 1 [] 0 (fun _ => 0) c4Addr rfl (by decide)
      rfl).2 (by decide)⟩

/-- A fresh context in `READ_REQUEST`, used by the C6 theorems. -/
def c6Ctx : ConnCtx := { (default : ConnCtx) with state := .READ_REQUEST }

/-- Default globals (empty cache, empty failure map), used by the C6 theorems. -/
def c6G : Globals := default

/-- A context whose backend connect failed with no retries configured. -/
def c6FailCtx : ConnCtx := { (default : ConnCtx) with
  state := .CONNECT_BACKEND
  backendSock := true
  backendAddr := some (ascii "10.0.0.1", 9000) }

/-- Globals with `MAX_RETRIES = 0`, so a connect failure is final. -/
def c6FailG : Globals := { (default : Globals) with maxRetries := 0 }

/-- Claim C6: (the proxy never writes the formatted error responses).
`responses.py` does implement the claimed fixed `HTTP/1.1` status-line +
`Server`/`Date`/`Content-Length: 0` template, but nothing calls it: the
error paths buffer the literal placeholder bytes `400 bad request`,
`502 bad gateway` and `503 service unavailable` instead (and nothing
at all ever emits a 431 or 505).  Shown here: the actual buffered bytes on a
malformed request (400) and on final connect failure (502), and that those
bytes differ from the `responses.py` templates for every possible date
string.
-/
theorem c6_error_responses_are_placeholders :
    (exOkCtx (read_request c6Ctx c6G (ascii "BAD\r\n\r\n") 0 [] 0 (fun _ => 0))).responseBuffer
        = ascii "400 bad request" ∧
    (exOkCtx (read_request c6Ctx c6G (ascii "BAD\r\n\r\n") 0 [] 0 (fun _ => 0))).state
        = .WRITE_CLIENT ∧
    (exOkCtx (confirm_backend_conn c6FailCtx c6FailG 1 [] 0 (fun _ => 0))).responseBuffer
        = ascii "502 bad gateway" ∧
    (exOkCtx (confirm_backend_conn c6FailCtx c6FailG 1 [] 0 (fun _ => 0))).state
        = .WRITE_CLIENT ∧
    (∀ d : List Nat, ascii "400 bad request" ≠ bad_request d) ∧
    (∀ d : List Nat, ascii "502 bad gateway" ≠ bad_gateway d) ∧
    (∀ d : List Nat, ascii "503 service unavailable" ≠ service_unavailable d) := by
  refine ⟨by decide, by decide, by decide, by decide, ?_, ?_, ?_⟩
  · intro d h
    have h2 := congrArg List.head? h
    rw [show (ascii "400 bad request").head? = some 52 from rfl] at h2
    rw [show (bad_request d).head? = some 72 from rfl] at h2
    exact absurd (Option.some.inj h2) (by decide)
  · intro d h
    have h2 := congrArg List.head? h
    rw [show (ascii "502 bad gateway").head? = some 53 from rfl] at h2
    rw [show (bad_gateway d).head? = some 72 from rfl] at h2
    exact absurd (Option.some.inj h2) (by decide)
  · intro d h
    have h2 := congrArg List.head? h
    rw [show (ascii "503 service unavailable").head? = some 53 from rfl] at h2
    rw [show (service_unavailable d).head? = some 72 from rfl] at h2
    exact absurd (Option.some.inj h2) (by decide)

/-- Witness instantiating the universally-quantified parts of
`c6_error_responses_are_placeholders` at a concrete date string. -/
theorem c6_error_responses_are_placeholders_witness :
    ascii "400 bad request" ≠ bad_request (ascii "Sun, 12 Oct 2025 00:00:00 GMT") :=
  c6_error_responses_are_placeholders.2.2.2.2.1 (ascii "Sun, 12 Oct 2025 00:00:00 GMT")

/-- A fresh client context, first request not yet received. -/
def c10Ctx0 : ConnCtx := { (default : ConnCtx) with state := .READ_REQUEST }

/-- Globals with one healthy backend. -/
def c10G : Globals :=
  ⟨[], ⟨.ROUND_ROBIN, [(ascii "127.0.0.1", 9001)], [((ascii "127.0.0.1", 9001), 0)], 0⟩,
    ⟨[]⟩, 3, 5⟩

/-- First request: explicitly keep-alive. -/
def c10Req1 : List Nat := ascii "GET /a HTTP/1.1\r\nConnection: keep-alive\r\n\r\n"

/-- Second request on the same connection: **no** `Connection` header. -/
def c10Req2 : List Nat := ascii "GET /b HTTP/1.1\r\nHost: h\r\n\r\n"

/-- A response to drain towards the client. -/
def c10Resp : List Nat := ascii "HTTP/1.1 200 OK\r\n\r\n"

/-- Context after the first (keep-alive) request head is processed. -/
def c10Ctx1 : ConnCtx :=
  exOkCtx (read_request c10Ctx0 c10G c10Req1 0 (ascii "9.9.9.9") 0 (fun _ => 0))

/-- Context after the first response has been fully drained to the client
(the backend round-trip itself only fills `responseBuffer` and re-arms the
socket, which is what the record update supplies). -/
def c10CtxW : ConnCtx :=
  write_client { c10Ctx1 with state := .WRITE_CLIENT, responseBuffer := c10Resp }
    (some c10Resp.length)

/-- Context after the second request (no `Connection` header) is processed. -/
def c10Ctx2 : ConnCtx :=
  exOkCtx (read_request c10CtxW c10G c10Req2 0 (ascii "9.9.9.9") 0 (fun _ => 0))

/-- Claim C10: (counterexample to the claim as stated).  `self.keepalive` is only
(re)assigned when a `Connection` header is present, and
`_init_connection_info` does not reset it: after a first request with
`Connection: keep-alive`, a second request with **no** `Connection` header
still sees `keepalive = True`, and draining its response in `WRITE_CLIENT`
returns to `READ_REQUEST` instead of transitioning to `CLEANUP` as the claim
requires.
-/
theorem c10_claim_counterexample :
    c10Ctx1.keepalive = some true ∧
    c10CtxW.state = .READ_REQUEST ∧
    ((parse_request (takeUntilSeq [13, 10, 13, 10] (c10CtxW.requestBuffer ++ c10Req2))).map
        (fun pr => dictContains (ascii "connection")
          (pr.2.map (fun p => (asciiLower p.1, asciiLower p.2)))) = some false) ∧
    c10Ctx2.keepalive = some true ∧
    (write_client { c10Ctx2 with state := .WRITE_CLIENT, responseBuffer := c10Resp }
        (some c10Resp.length)).state = .READ_REQUEST := by
  decide

theorem init_backend_conn_keepalive (ctx : ConnCtx) (g : Globals) (ip : List Nat)
    (ri : Nat) (ihash : List Nat → Nat) (out : ConnCtx × Globals)
    (h : init_backend_conn ctx g ip ri ihash = .ok out) :
    out.1.keepalive = ctx.keepalive := by
  rw [init_backend_conn] at h
  split at h
  · split at h
    · injection h with h2
      rw [← h2]
    · exact Except.noConfusion h
  · injection h with h2
    rw [← h2]

/-- Claim C10: (amended).  The `keepalive` attribute is only (re)assigned when the
parsed head carries a `Connection` header, and is **not** reset between
requests: (1) a `_read_request` step whose parsed head has no `Connection`
header leaves `keepalive` exactly as it was — so the flag set by an earlier
request on the same connection persists and governs; (2) when the attribute
was never assigned at all (`none`, as for the first request of a
connection), draining the response buffer in `_write_client` transitions to
`CLEANUP` (the `AttributeError` path).  The claim as stated only holds in
case (2).
-/
theorem c10_no_connection_keepalive_amended :
    (∀ (ctx : ConnCtx) (g : Globals) (data : List Nat) (now : Int)
        (clientIp : List Nat) (randomIdx : Nat) (ipHash : List Nat → Nat)
        (out : ConnCtx × Globals),
      read_request ctx g data now clientIp randomIdx ipHash = .ok out →
      (parse_request (takeUntilSeq [13, 10, 13, 10] (ctx.requestBuffer ++ data))).map
          (fun pr => dictContains (ascii "connection")
            (pr.2.map (fun p => (asciiLower p.1, asciiLower p.2)))) ≠ some true →
      out.1.keepalive = ctx.keepalive) ∧
    (∀ ctx : ConnCtx, ctx.keepalive = none →
      (write_client ctx (some ctx.responseBuffer.length)).state = .CLEANUP) := by
  constructor
  · intro ctx g data now ip ri ihash out hok hnoconn
    simp only [read_request] at hok
    split at hok
    · injection hok with h2
      rw [← h2]
    · split at hok
      · split at hok
        · split at hok
          · injection hok with h2
            rw [← h2]
          · exact Except.noConfusion hok
        · split at hok
          · injection hok with h2
            rw [← h2]
          · rename_i reqLine reqHeaders heq
            split at hok
            · injection hok with h2
              rw [← h2]
            · rename_i cl hcl
              rw [heq] at hnoconn
              simp only [Option.map_some'] at hnoconn
              have hconnF : dictContains (ascii "connection")
                  (reqHeaders.map (fun p => (asciiLower p.1, asciiLower p.2))) = false := by
                cases hcc : dictContains (ascii "connection")
                    (reqHeaders.map (fun p => (asciiLower p.1, asciiLower p.2))) with
                | false => rfl
                | true => exact absurd (by rw [hcc]) hnoconn
              simp only [hconnF, Bool.false_eq_true, if_false] at hok
              split at hok
              · injection hok with h2
                rw [← h2]
              · split at hok
                · injection hok with h2
                  rw [← h2]
                · split at hok
                  · rw [init_backend_conn_keepalive _ _ _ _ _ _ hok]
                  · injection hok with h2
                    rw [← h2]
      · injection hok with h2
        rw [← h2]
  · intro ctx hka
    by_cases hb : ctx.responseBuffer.isEmpty
    · have hb2 : ctx.responseBuffer = [] := by
        cases hbuf : ctx.responseBuffer with
        | nil => rfl
        | cons a t => rw [hbuf] at hb; exact absurd hb (by simp)
      simp [write_client, hb2, hka]
    · have hlen : ctx.responseBuffer.length ≠ 0 := by
        intro h0
        rw [List.length_eq_zero] at h0
        rw [h0] at hb
        exact hb rfl
      simp [write_client, hb, hka, hlen, List.drop_length]

/-- Witness instantiating `c10_no_connection_keepalive_amended`: a fresh
context (keepalive never assigned) processing a request without a
`Connection` header keeps `keepalive` unassigned, and a fresh context
draining its buffer goes to `CLEANUP`. -/
theorem c10_no_connection_keepalive_amended_witness :
    (read_request c10Ctx0 c10G c10Req2 0 [] 0 (fun _ => 0)
        = .ok (exOkPair (read_request c10Ctx0 c10G c10Req2 0 [] 0 (fun _ => 0))) ∧
      (parse_request (takeUntilSeq [13, 10, 13, 10] (c10Ctx0.requestBuffer ++ c10Req2))).map
          (fun pr => dictContains (ascii "connection")
            (pr.2.map (fun p => (asciiLower p.1, asciiLower p.2)))) ≠ some true ∧
      (c10Ctx0.keepalive = none)) ∧
    (exOkPair (read_request c10Ctx0 c10G c10Req2 0 [] 0 (fun _ => 0))).1.keepalive
       = c10Ctx0.keepalive ∧
    (write_client c10Ctx0 (some c10Ctx0.responseBuffer.length)).state = .CLEANUP :=
  ⟨⟨rfl, by decide, rfl⟩,
    c10_no_connection_keepalive_amended.1 c10Ctx0 c10G c10Req2 0 [] 0 (fun _ => 0)
      (exOkPair (read_request c10Ctx0 c10G c10Req2 0 [] 0 (fun _ => 0)))
      rfl (by decide),
    c10_no_connection_keepalive_amended.2 c10Ctx0 rfl⟩
